import Mathlib

/-!
# Theme toggle (`static/js/theme-toggle.js`)

A shallow embedding of the page script that restores a persisted light/dark
theme when the document is ready and updates it whenever the `theme-toggle`
checkbox changes.

The browser is modelled by a `Page`: the origin's `localStorage`, the attributes
of `document.documentElement`, the elements reachable through
`document.getElementById`, and a history of the effects the script has
performed.  The model covers pages on which `localStorage` is accessible and
`setItem` succeeds; a missing element is modelled (`getElementById` yields
`null` and a property access on it throws a `TypeError`).
-/

namespace ThemeToggle

/-! ## Browser model -/

/-- The uncaught exceptions the script can raise. -/
inductive JsError where
  | typeError
  deriving DecidableEq, Repr

/-- An effect performed by the script on its environment. -/
inductive Effect where
  | getItem (key : String)
  | setItem (key value : String)
  | getElementById (id : String)
  | setAttribute (name value : String)
  | setChecked (id : String) (value : Bool)
  | addEventListener (id type : String)
  deriving DecidableEq, Repr

/-- An element of the document, as far as the script can observe it: its
`checked` property and the event types on which `toggleTheme` is registered. -/
structure Element where
  checked : Bool
  listeners : List String
  deriving DecidableEq, Repr

/-- The state of the browser the script runs in. -/
structure Page where
  /-- The origin's `localStorage`: `none` is a key without entry (`getItem` returns `null`). -/
  localStorage : String → Option String
  /-- Attributes of `document.documentElement`: `none` is an unset attribute. -/
  documentElement : String → Option String
  /-- Elements by id: `none` when `document.getElementById` returns `null`. -/
  elements : String → Option Element
  /-- Effects performed by the script so far, oldest first. -/
  trace : List Effect

/-- The result of running a piece of script: the page it leaves behind and the
uncaught exception, if any, that ended it. -/
structure Outcome where
  page : Page
  error : Option JsError

/-- Normal completion. -/
def Outcome.ok (p : Page) : Outcome := ⟨p, none⟩

/-- Abrupt completion with an exception. -/
def Outcome.throw (e : JsError) (p : Page) : Outcome := ⟨p, some e⟩

/-- Sequencing of statements: what follows a statement runs only if the
statement completed normally. -/
def Outcome.andThen (r : Outcome) (k : Page → Outcome) : Outcome :=
  match r.error with
  | none => k r.page
  | some _ => r

/-- Appends one effect to the history. -/
def Page.record (p : Page) (e : Effect) : Page :=
  { p with trace := p.trace ++ [e] }

/-- The effects performed between two pages of one execution. -/
def effectsSince (before after : Page) : List Effect :=
  after.trace.drop before.trace.length

/-- JavaScript `ToBoolean` on a value that is `null` or a string. -/
def truthy : Option String → Bool
  | none => false
  | some s => s != ""

/-- JavaScript conversion of a value that is `null` or a string to a DOM string. -/
def toDOMString : Option String → String
  | none => "null"
  | some s => s

/-- Models `localStorage.getItem(key)`. -/
def getItem (key : String) (p : Page) : Option String × Page :=
  (p.localStorage key, p.record (Effect.getItem key))

/-- Models `localStorage.setItem(key, value)`. -/
def setItem (key value : String) (p : Page) : Page :=
  { p with
    localStorage := fun k => if k = key then some value else p.localStorage k
    trace := p.trace ++ [Effect.setItem key value] }

/-- Models `document.getElementById(id)`: a reference to the element (its id), or
`none` for `null`. -/
def getElementById (id : String) (p : Page) : Option String × Page :=
  ((p.elements id).map (fun _ => id), p.record (Effect.getElementById id))

/-- Models `document.documentElement.setAttribute(name, value)`. -/
def setAttribute (name value : String) (p : Page) : Page :=
  { p with
    documentElement := fun a => if a = name then some value else p.documentElement a
    trace := p.trace ++ [Effect.setAttribute name value] }

/-- Models the assignment `ref.checked = value`: a `TypeError` when `ref` is `null`. -/
def setChecked (ref : Option String) (value : Bool) (p : Page) : Outcome :=
  match ref with
  | none => Outcome.throw JsError.typeError p
  | some id =>
    Outcome.ok
      { p with
        elements := fun i =>
          if i = id then (p.elements i).map (fun el => { el with checked := value })
          else p.elements i
        trace := p.trace ++ [Effect.setChecked id value] }

/-- Models `ref.addEventListener(type, toggleTheme, false)`: a `TypeError` when
`ref` is `null`. -/
def addEventListener (ref : Option String) (type : String) (p : Page) : Outcome :=
  match ref with
  | none => Outcome.throw JsError.typeError p
  | some id =>
    Outcome.ok
      { p with
        elements := fun i =>
          if i = id then
            (p.elements i).map (fun el => { el with listeners := el.listeners ++ [type] })
          else p.elements i
        trace := p.trace ++ [Effect.addEventListener id type] }

/-! ## The script -/

/-- The change handler `toggleTheme(e)`; `targetChecked` is `e.target.checked`. -/
def toggleTheme (targetChecked : Bool) (p : Page) : Page :=
  let theme := if targetChecked then "light" else "dark"
  let p1 := setAttribute "data-theme" theme p
  setItem "theme" theme p1

/-- The `DOMContentLoaded` listener. -/
def onDOMContentLoaded (p : Page) : Outcome :=
  let r1 := getItem "theme" p
  let currentTheme := r1.1
  let r2 := getElementById "theme-toggle" r1.2
  let themeToggle := r2.1
  let afterIf : Outcome :=
    if truthy currentTheme then
      let p3 := setAttribute "data-theme" (toDOMString currentTheme) r2.2
      setChecked themeToggle (if currentTheme = some "light" then true else false) p3
    else
      Outcome.ok r2.2
  afterIf.andThen (addEventListener themeToggle "change")

/-! ## Events and page loads -/

/-- A `change` event on the element `id`: the user has put the control in state
`checked`, and the browser then calls every `change` listener of the element
with the element as `e.target`. -/
def changeEvent (id : String) (checked : Bool) (p : Page) : Page :=
  match p.elements id with
  | none => p
  | some el =>
    let p1 : Page :=
      { p with
        elements := fun i =>
          if i = id then some { el with checked := checked } else p.elements i }
    (el.listeners.filter (fun t => t == "change")).foldl
      (fun q _ => toggleTheme checked q) p1

/-- A page load followed by any number of `change` events on the checkbox. -/
def session (p : Page) (events : List Bool) : Page :=
  events.foldl (fun q b => changeEvent "theme-toggle" b q) (onDOMContentLoaded p).page

/-- A fresh load of the page: the document is the one served (`fresh`), the
storage is carried over from the previous visit. -/
def reload (previous fresh : Page) : Page :=
  { fresh with localStorage := previous.localStorage }

/-- The `checked` state of the `theme-toggle` checkbox, if the element exists. -/
def checkboxChecked (p : Page) : Option Bool :=
  (p.elements "theme-toggle").map Element.checked

/-- The stored preference, the root attribute and the checkbox agree. -/
def Consistent (p : Page) : Prop :=
  ∀ v, p.localStorage "theme" = some v →
    p.documentElement "data-theme" = some v ∧
    checkboxChecked p = some (decide (v = "light"))

/-- A page as first served: nothing stored, no attribute, an unchecked
`theme-toggle` checkbox without listeners. -/
def blankPage : Page :=
  { localStorage := fun _ => none
    documentElement := fun _ => none
    elements := fun i => if i = "theme-toggle" then some ⟨false, []⟩ else none
    trace := [] }

/-- The blank page with `value` stored under `theme`. -/
def storedPage (value : String) : Page :=
  { blankPage with localStorage := fun k => if k = "theme" then some value else none }

/-- A page without the `theme-toggle` element. -/
def bareDocument (stored : Option String) : Page :=
  { localStorage := fun k => if k = "theme" then stored else none
    documentElement := fun _ => none
    elements := fun _ => none
    trace := [] }

/-- The effects of initialization, by cases on the stored value and on the
presence of the checkbox. -/
def initEffects (p : Page) : List Effect :=
  [Effect.getItem "theme", Effect.getElementById "theme-toggle"] ++
  (if truthy (p.localStorage "theme") then
    [Effect.setAttribute "data-theme" (toDOMString (p.localStorage "theme"))] ++
    (if (p.elements "theme-toggle").isSome then
      [Effect.setChecked "theme-toggle" (decide (p.localStorage "theme" = some "light"))]
    else [])
  else []) ++
  (if (p.elements "theme-toggle").isSome then
    [Effect.addEventListener "theme-toggle" "change"]
  else [])

/-- The checkbox exists and carries a `change` listener. -/
def Listening (p : Page) : Prop :=
  ∃ el, p.elements "theme-toggle" = some el ∧ "change" ∈ el.listeners

/-! ## Evaluation on concrete pages -/

example : (onDOMContentLoaded (storedPage "dark")).page.documentElement "data-theme" = some "dark" := by
  decide
example : checkboxChecked (onDOMContentLoaded (storedPage "light")).page = some true := by
  decide
example : (onDOMContentLoaded (storedPage "")).page.documentElement "data-theme" = none := by
  decide
example : (onDOMContentLoaded (bareDocument (some "dark"))).error = some JsError.typeError := by
  decide
example : (session (storedPage "dark") [true, false, true]).localStorage "theme" = some "light" := by
  decide
example : (onDOMContentLoaded (storedPage "dark")).page.trace =
    [Effect.getItem "theme", Effect.getElementById "theme-toggle",
     Effect.setAttribute "data-theme" "dark", Effect.setChecked "theme-toggle" false,
     Effect.addEventListener "theme-toggle" "change"] := by
  decide

/-! ## Basic facts about the primitives -/

theorem effectsSince_append (p q : Page) (l : List Effect) (h : q.trace = p.trace ++ l) :
    effectsSince p q = l := by
  simp [effectsSince, h]

theorem toggleTheme_elements (b : Bool) (p : Page) :
    (toggleTheme b p).elements = p.elements := rfl

theorem toggleTheme_stored (b : Bool) (p : Page) :
    (toggleTheme b p).localStorage "theme" = some (if b then "light" else "dark") := by
  simp [toggleTheme, setItem]

theorem toggleTheme_attribute (b : Bool) (p : Page) :
    (toggleTheme b p).documentElement "data-theme" = some (if b then "light" else "dark") := by
  simp [toggleTheme, setItem, setAttribute]

theorem toggleTheme_trace (b : Bool) (p : Page) :
    (toggleTheme b p).trace =
      p.trace ++ [Effect.setAttribute "data-theme" (if b then "light" else "dark"),
                  Effect.setItem "theme" (if b then "light" else "dark")] := by
  simp [toggleTheme, setItem, setAttribute]

theorem init_trace (p : Page) :
    (onDOMContentLoaded p).page.trace = p.trace ++ initEffects p := by
  by_cases hv : p.localStorage "theme" = some "" <;>
  rcases he : p.elements "theme-toggle" with _ | el <;>
  rcases hs : p.localStorage "theme" with _ | v <;>
  simp [hs] at hv <;>
  simp [onDOMContentLoaded, initEffects, getItem, getElementById, setAttribute, setChecked,
    addEventListener, Outcome.andThen, Outcome.ok, Outcome.throw, Page.record, truthy,
    toDOMString, he, hs, hv]

theorem init_storage (p : Page) :
    (onDOMContentLoaded p).page.localStorage = p.localStorage := by
  by_cases hv : p.localStorage "theme" = some "" <;>
  rcases he : p.elements "theme-toggle" with _ | el <;>
  rcases hs : p.localStorage "theme" with _ | v <;>
  simp [hs] at hv <;>
  simp [onDOMContentLoaded, getItem, getElementById, setAttribute, setChecked,
    addEventListener, Outcome.andThen, Outcome.ok, Outcome.throw, Page.record, truthy,
    toDOMString, he, hs, hv]

theorem init_error (p : Page) :
    (onDOMContentLoaded p).error =
      if (p.elements "theme-toggle").isSome then none else some JsError.typeError := by
  by_cases hv : p.localStorage "theme" = some "" <;>
  rcases he : p.elements "theme-toggle" with _ | el <;>
  rcases hs : p.localStorage "theme" with _ | v <;>
  simp [hs] at hv <;>
  simp [onDOMContentLoaded, getItem, getElementById, setAttribute, setChecked,
    addEventListener, Outcome.andThen, Outcome.ok, Outcome.throw, Page.record, truthy,
    toDOMString, he, hs, hv]

theorem init_documentElement (p : Page) :
    (onDOMContentLoaded p).page.documentElement =
      if truthy (p.localStorage "theme") then
        fun a => if a = "data-theme" then some (toDOMString (p.localStorage "theme"))
                 else p.documentElement a
      else p.documentElement := by
  by_cases hv : p.localStorage "theme" = some "" <;>
  rcases he : p.elements "theme-toggle" with _ | el <;>
  rcases hs : p.localStorage "theme" with _ | v <;>
  simp [hs] at hv <;>
  simp [onDOMContentLoaded, getItem, getElementById, setAttribute, setChecked,
    addEventListener, Outcome.andThen, Outcome.ok, Outcome.throw, Page.record, truthy,
    toDOMString, he, hs, hv]

theorem init_elements_absent (p : Page) (he : p.elements "theme-toggle" = none) :
    (onDOMContentLoaded p).page.elements = p.elements := by
  by_cases hv : p.localStorage "theme" = some "" <;>
  rcases hs : p.localStorage "theme" with _ | v <;>
  simp [hs] at hv <;>
  simp [onDOMContentLoaded, getItem, getElementById, setAttribute, setChecked,
    addEventListener, Outcome.andThen, Outcome.ok, Outcome.throw, Page.record, truthy,
    toDOMString, he, hs, hv]

theorem init_elements_present (p : Page) (el : Element)
    (he : p.elements "theme-toggle" = some el) :
    (onDOMContentLoaded p).page.elements =
      fun i => if i = "theme-toggle" then
          some { checked := if truthy (p.localStorage "theme")
                            then decide (p.localStorage "theme" = some "light")
                            else el.checked
                 listeners := el.listeners ++ ["change"] }
        else p.elements i := by
  by_cases hv : p.localStorage "theme" = some "" <;>
  rcases hs : p.localStorage "theme" with _ | v <;>
  simp [hs] at hv <;>
  funext i <;>
  by_cases hi : i = "theme-toggle" <;>
  simp [onDOMContentLoaded, getItem, getElementById, setAttribute, setChecked,
    addEventListener, Outcome.andThen, Outcome.ok, Outcome.throw, Page.record, truthy,
    toDOMString, he, hs, hv, hi]

theorem present_of_isSome (p : Page) (h : (p.elements "theme-toggle").isSome) :
    ∃ el, p.elements "theme-toggle" = some el :=
  Option.isSome_iff_exists.mp h

/-- What initialization does with a non-empty stored value when the checkbox
exists. -/
theorem init_truthy_applied (p : Page) (v : String)
    (hs : p.localStorage "theme" = some v) (hv : v ≠ "")
    (hc : (p.elements "theme-toggle").isSome) :
    (onDOMContentLoaded p).error = none ∧
    (onDOMContentLoaded p).page.documentElement "data-theme" = some v ∧
    checkboxChecked (onDOMContentLoaded p).page = some (decide (v = "light")) := by
  obtain ⟨el, he⟩ := present_of_isSome p hc
  refine ⟨?_, ?_, ?_⟩
  · simp [init_error, he]
  · simp [init_documentElement, hs, truthy, toDOMString, hv]
  · simp [checkboxChecked, init_elements_present p el he, hs, truthy, hv]

/-- What initialization does with a falsy stored value (no entry, or the empty
string) when the checkbox exists. -/
theorem init_skips_falsy (p : Page)
    (hs : truthy (p.localStorage "theme") = false)
    (hc : (p.elements "theme-toggle").isSome) :
    (onDOMContentLoaded p).error = none ∧
    (onDOMContentLoaded p).page.documentElement = p.documentElement ∧
    (∀ i, ((onDOMContentLoaded p).page.elements i).map Element.checked =
      (p.elements i).map Element.checked) := by
  obtain ⟨el, he⟩ := present_of_isSome p hc
  refine ⟨?_, ?_, ?_⟩
  · simp [init_error, he]
  · simp [init_documentElement, hs]
  · intro i
    by_cases hi : i = "theme-toggle"
    · simp [init_elements_present p el he, hs, hi, he]
    · simp [init_elements_present p el he, hi]

/-- Running the handler any number of times, at least once, leaves the stored
value and the attribute at the theme of the event, and never touches the
elements. -/
theorem toggleTheme_repeat (b : Bool) (l : List String) (q : Page) :
    (l.foldl (fun r _ => toggleTheme b r) q).elements = q.elements ∧
    (l ≠ [] ∨ (q.localStorage "theme" = some (if b then "light" else "dark") ∧
               q.documentElement "data-theme" = some (if b then "light" else "dark")) →
      (l.foldl (fun r _ => toggleTheme b r) q).localStorage "theme" =
          some (if b then "light" else "dark") ∧
      (l.foldl (fun r _ => toggleTheme b r) q).documentElement "data-theme" =
          some (if b then "light" else "dark")) := by
  induction l generalizing q with
  | nil =>
    refine ⟨rfl, ?_⟩
    intro h
    rcases h with h | h
    · exact absurd rfl h
    · exact h
  | cons t ts ih =>
    obtain ⟨h1, h2⟩ := ih (toggleTheme b q)
    refine ⟨?_, ?_⟩
    · simpa [List.foldl_cons, toggleTheme_elements] using h1
    · intro _
      simpa [List.foldl_cons] using
        h2 (Or.inr ⟨toggleTheme_stored b q, toggleTheme_attribute b q⟩)

/-- A change event on a listening page leaves it consistent and listening. -/
theorem changeEvent_consistent (b : Bool) (p : Page) (h : Listening p) :
    Consistent (changeEvent "theme-toggle" b p) ∧ Listening (changeEvent "theme-toggle" b p) := by
  obtain ⟨el, he, hl⟩ := h
  have hne : el.listeners.filter (fun t => t == "change") ≠ [] := by
    intro hnil
    have : "change" ∈ el.listeners.filter (fun t => t == "change") := by
      simp [List.mem_filter, hl]
    rw [hnil] at this
    exact absurd this (List.not_mem_nil _)
  have key := toggleTheme_repeat b (el.listeners.filter (fun t => t == "change"))
    { p with elements := fun i =>
        if i = "theme-toggle" then some { el with checked := b } else p.elements i }
  obtain ⟨k1, k2⟩ := key
  obtain ⟨k3, k4⟩ := k2 (Or.inl hne)
  have hel : (changeEvent "theme-toggle" b p).elements "theme-toggle" =
      some { el with checked := b } := by
    simp only [changeEvent, he]
    rw [k1]
    simp
  refine ⟨?_, ⟨_, hel, hl⟩⟩
  intro v hv
  have hst : (changeEvent "theme-toggle" b p).localStorage "theme" =
      some (if b then "light" else "dark") := by
    simp only [changeEvent, he]
    exact k3
  have hat : (changeEvent "theme-toggle" b p).documentElement "data-theme" =
      some (if b then "light" else "dark") := by
    simp only [changeEvent, he]
    exact k4
  rw [hst] at hv
  have hv2 : v = if b then "light" else "dark" := (Option.some.inj hv).symm
  refine ⟨by rw [hat, hv2], ?_⟩
  simp only [checkboxChecked, hel, Option.map_some']
  cases b <;> simp [hv2]

/-- Consistency and listening survive any sequence of change events. -/
theorem events_consistent (events : List Bool) (q : Page)
    (hq : Consistent q ∧ Listening q) :
    Consistent (events.foldl (fun r b => changeEvent "theme-toggle" b r) q) := by
  induction events generalizing q with
  | nil => exact hq.1
  | cons b bs ih =>
    simp only [List.foldl_cons]
    exact ih _ (changeEvent_consistent b q hq.2)

/-! ## The claims -/

/-- C1: for a stored value `v` that is "light" or "dark" and any prior attribute
and checkbox state with the `theme-toggle` checkbox present, initialization
completes, the root `data-theme` attribute equals `v` and the checkbox is
checked exactly when `v` is "light". -/
theorem init_restores_stored_theme (p : Page) (v : String)
    (hv : v = "light" ∨ v = "dark")
    (hs : p.localStorage "theme" = some v)
    (hc : (p.elements "theme-toggle").isSome) :
    (onDOMContentLoaded p).error = none ∧
    (onDOMContentLoaded p).page.documentElement "data-theme" = some v ∧
    checkboxChecked (onDOMContentLoaded p).page = some (decide (v = "light")) := by
  have hne : v ≠ "" := by
    rcases hv with h | h <;> subst h <;> decide
  exact init_truthy_applied p v hs hne hc

/-- C1 at the scenario "stored theme is dark": the attribute becomes "dark" and
the checkbox is unchecked. -/
theorem init_restores_stored_theme_witness :
    (onDOMContentLoaded (storedPage "dark")).error = none ∧
    (onDOMContentLoaded (storedPage "dark")).page.documentElement "data-theme" = some "dark" ∧
    checkboxChecked (onDOMContentLoaded (storedPage "dark")).page = some false :=
  init_restores_stored_theme (storedPage "dark") "dark" (Or.inr rfl) (by decide) (by decide)

/-- C2: for every checkbox state `s` and every prior page, after `toggleTheme`
handles a change event whose target has `checked = s`, the value stored under
`theme` is "light" if `s` and "dark" otherwise, and the root `data-theme`
attribute is that same string. -/
theorem toggleTheme_applies_to_both_sinks (s : Bool) (p : Page) :
    (toggleTheme s p).localStorage "theme" = some (if s then "light" else "dark") ∧
    (toggleTheme s p).documentElement "data-theme" = some (if s then "light" else "dark") :=
  ⟨toggleTheme_stored s p, toggleTheme_attribute s p⟩

/-- C3: when storage has no entry under `theme` and the checkbox is present,
initialization completes, leaves every root attribute and every element's
checked state as it was (so unset and unchecked if they started so), leaves the
store as it was and performs no storage write. -/
theorem init_without_preference_changes_nothing (p : Page)
    (hs : p.localStorage "theme" = none)
    (hc : (p.elements "theme-toggle").isSome) :
    (onDOMContentLoaded p).error = none ∧
    (onDOMContentLoaded p).page.documentElement = p.documentElement ∧
    checkboxChecked (onDOMContentLoaded p).page = checkboxChecked p ∧
    (p.documentElement "data-theme" = none →
      (onDOMContentLoaded p).page.documentElement "data-theme" = none) ∧
    (checkboxChecked p = some false →
      checkboxChecked (onDOMContentLoaded p).page = some false) ∧
    (onDOMContentLoaded p).page.localStorage = p.localStorage ∧
    (∀ k w, Effect.setItem k w ∉ effectsSince p (onDOMContentLoaded p).page) := by
  have hf : truthy (p.localStorage "theme") = false := by simp [hs, truthy]
  obtain ⟨h1, h2, h3⟩ := init_skips_falsy p hf hc
  have h4 : checkboxChecked (onDOMContentLoaded p).page = checkboxChecked p :=
    h3 "theme-toggle"
  refine ⟨h1, h2, h4, ?_, ?_, init_storage p, ?_⟩
  · intro h; rw [h2]; exact h
  · intro h; rw [h4]; exact h
  · intro k w
    rw [effectsSince_append p _ _ (init_trace p)]
    simp [initEffects, hf]

/-- C3 at the scenario "no stored theme": the attribute stays unset, the
checkbox stays unchecked and nothing is written. -/
theorem init_without_preference_changes_nothing_witness :
    (onDOMContentLoaded blankPage).error = none ∧
    (onDOMContentLoaded blankPage).page.documentElement = blankPage.documentElement ∧
    checkboxChecked (onDOMContentLoaded blankPage).page = checkboxChecked blankPage ∧
    (blankPage.documentElement "data-theme" = none →
      (onDOMContentLoaded blankPage).page.documentElement "data-theme" = none) ∧
    (checkboxChecked blankPage = some false →
      checkboxChecked (onDOMContentLoaded blankPage).page = some false) ∧
    (onDOMContentLoaded blankPage).page.localStorage = blankPage.localStorage ∧
    (∀ k w, Effect.setItem k w ∉ effectsSince blankPage (onDOMContentLoaded blankPage).page) :=
  init_without_preference_changes_nothing blankPage (by decide) (by decide)

/-- C4 as stated fails: with the empty string stored under `theme` and the
checkbox present, initialization does not set the root `data-theme` attribute
to the stored value; the attribute stays unset. -/
theorem init_ignores_empty_stored_value :
    (storedPage "").localStorage "theme" = some "" ∧
    ((storedPage "").elements "theme-toggle").isSome = true ∧
    (onDOMContentLoaded (storedPage "")).error = none ∧
    (onDOMContentLoaded (storedPage "")).page.documentElement "data-theme" = none ∧
    (onDOMContentLoaded (storedPage "")).page.documentElement "data-theme" ≠ some "" := by
  decide

/-- C4, amended: for every non-empty string `v` stored under `theme`, with the
checkbox present, initialization completes, sets the root `data-theme`
attribute to `v` and makes the checkbox checked exactly when `v` is "light";
when the stored value is the empty string, initialization completes and leaves
the root attributes and every checked state as they were. -/
theorem init_applies_nonempty_stored_value (p : Page) (v : String)
    (hs : p.localStorage "theme" = some v)
    (hc : (p.elements "theme-toggle").isSome) :
    (onDOMContentLoaded p).error = none ∧
    (v ≠ "" →
      (onDOMContentLoaded p).page.documentElement "data-theme" = some v ∧
      checkboxChecked (onDOMContentLoaded p).page = some (decide (v = "light"))) ∧
    (v = "" →
      (onDOMContentLoaded p).page.documentElement = p.documentElement ∧
      checkboxChecked (onDOMContentLoaded p).page = checkboxChecked p) := by
  refine ⟨?_, ?_, ?_⟩
  · obtain ⟨el, he⟩ := present_of_isSome p hc
    simp [init_error, he]
  · intro hv
    exact (init_truthy_applied p v hs hv hc).2
  · intro hv
    have hf : truthy (p.localStorage "theme") = false := by simp [hs, truthy, hv]
    obtain ⟨_, h2, h3⟩ := init_skips_falsy p hf hc
    exact ⟨h2, h3 "theme-toggle"⟩

/-- C4, amended, at a stored value outside the two themes: "blue" is applied
to the attribute and the checkbox is unchecked. -/
theorem init_applies_nonempty_stored_value_witness :
    (onDOMContentLoaded (storedPage "blue")).page.documentElement "data-theme" = some "blue" ∧
    checkboxChecked (onDOMContentLoaded (storedPage "blue")).page = some false :=
  (init_applies_nonempty_stored_value (storedPage "blue") "blue" (by decide) (by decide)).2.1
    (by decide)

/-- C5: from any page whose `theme` entry is absent, "light" or "dark", after a
successful initialization followed by any finite sequence of change events on
the checkbox, whenever a preference is stored the root `data-theme` attribute
equals it and the checkbox is checked exactly when it is "light". -/
theorem session_consistent (p : Page) (events : List Bool)
    (hdom : p.localStorage "theme" = none ∨ p.localStorage "theme" = some "light" ∨
      p.localStorage "theme" = some "dark")
    (hok : (onDOMContentLoaded p).error = none) :
    Consistent (session p events) := by
  have hc : (p.elements "theme-toggle").isSome := by
    by_contra hn
    rw [init_error] at hok
    simp [hn] at hok
  obtain ⟨el, he⟩ := present_of_isSome p hc
  refine events_consistent events _ ⟨?_, ?_⟩
  · intro v hv
    rw [init_storage] at hv
    have hne : v ≠ "" := by
      rcases hdom with h | h | h <;> rw [h] at hv
      · exact absurd hv (by simp)
      · rw [← Option.some.inj hv]; decide
      · rw [← Option.some.inj hv]; decide
    exact (init_truthy_applied p v hv hne hc).2
  · refine ⟨_, by rw [init_elements_present p el he]; simp; rfl, ?_⟩
    simp

/-- C5 on a page with "dark" stored and the events check, uncheck, check. -/
theorem session_consistent_witness :
    (onDOMContentLoaded (storedPage "dark")).error = none ∧
    Consistent (session (storedPage "dark") [true, false, true]) :=
  ⟨by decide, session_consistent (storedPage "dark") [true, false, true]
    (Or.inr (Or.inr (by decide))) (by decide)⟩

/-- C6: if `toggleTheme` handles a change event with `checked = s` and the page
is then loaded afresh with the storage carried over and the checkbox present,
initialization completes, the root `data-theme` attribute is the theme chosen
before the reload and the checkbox's checked state is `s`. -/
theorem persistence_round_trip (s : Bool) (p fresh : Page)
    (hc : (fresh.elements "theme-toggle").isSome) :
    (onDOMContentLoaded (reload (toggleTheme s p) fresh)).error = none ∧
    (onDOMContentLoaded (reload (toggleTheme s p) fresh)).page.documentElement "data-theme" =
      some (if s then "light" else "dark") ∧
    checkboxChecked (onDOMContentLoaded (reload (toggleTheme s p) fresh)).page = some s := by
  have hs : (reload (toggleTheme s p) fresh).localStorage "theme" =
      some (if s then "light" else "dark") := toggleTheme_stored s p
  have hne : (if s then "light" else "dark") ≠ "" := by cases s <;> decide
  have hc2 : ((reload (toggleTheme s p) fresh).elements "theme-toggle").isSome := hc
  obtain ⟨h1, h2, h3⟩ := init_truthy_applied _ _ hs hne hc2
  refine ⟨h1, h2, ?_⟩
  rw [h3]
  cases s <;> decide

/-- C6 for a user who unchecks the box on a page that had "light" stored and
then reloads the page as first served. -/
theorem persistence_round_trip_witness :
    (onDOMContentLoaded (reload (toggleTheme false (storedPage "light")) blankPage)).error = none ∧
    (onDOMContentLoaded (reload (toggleTheme false (storedPage "light")) blankPage)).page.documentElement
      "data-theme" = some "dark" ∧
    checkboxChecked (onDOMContentLoaded (reload (toggleTheme false (storedPage "light")) blankPage)).page
      = some false :=
  persistence_round_trip false (storedPage "light") blankPage (by decide)

/-- C7: whatever the storage holds, initialization ends with an uncaught error
exactly when the page has no element with id `theme-toggle`; in that case no
listener is registered, and when the element is present initialization completes
and registers the `change` listener on it. -/
theorem init_fails_iff_checkbox_missing (p : Page) :
    ((onDOMContentLoaded p).error ≠ none ↔ p.elements "theme-toggle" = none) ∧
    (p.elements "theme-toggle" = none →
      (onDOMContentLoaded p).error = some JsError.typeError ∧
      (∀ id type,
        Effect.addEventListener id type ∉ effectsSince p (onDOMContentLoaded p).page) ∧
      (onDOMContentLoaded p).page.elements = p.elements) ∧
    ((p.elements "theme-toggle").isSome →
      (onDOMContentLoaded p).error = none ∧
      Effect.addEventListener "theme-toggle" "change" ∈
        effectsSince p (onDOMContentLoaded p).page) := by
  refine ⟨?_, ?_, ?_⟩
  · rw [init_error]
    rcases he : p.elements "theme-toggle" with _ | el <;> simp
  · intro he
    refine ⟨by simp [init_error, he], ?_, init_elements_absent p he⟩
    intro id type
    rw [effectsSince_append p _ _ (init_trace p)]
    simp only [initEffects, he, Option.isSome_none]
    split_ifs <;> simp_all
  · intro hc
    obtain ⟨el, he⟩ := present_of_isSome p hc
    refine ⟨by simp [init_error, he], ?_⟩
    rw [effectsSince_append p _ _ (init_trace p)]
    simp [initEffects, he]

/-- C7 on a page without the checkbox and "dark" stored (error, no listener) and
on the page as first served (no error). -/
theorem init_fails_iff_checkbox_missing_witness :
    ((onDOMContentLoaded (bareDocument (some "dark"))).error = some JsError.typeError ∧
      (∀ id type, Effect.addEventListener id type ∉
        effectsSince (bareDocument (some "dark"))
          (onDOMContentLoaded (bareDocument (some "dark"))).page) ∧
      (onDOMContentLoaded (bareDocument (some "dark"))).page.elements =
        (bareDocument (some "dark")).elements) ∧
    ((onDOMContentLoaded blankPage).error = none ∧
      Effect.addEventListener "theme-toggle" "change" ∈
        effectsSince blankPage (onDOMContentLoaded blankPage).page) :=
  ⟨(init_fails_iff_checkbox_missing (bareDocument (some "dark"))).2.1 (by decide),
   (init_fails_iff_checkbox_missing blankPage).2.2 (by decide)⟩

/-- C8 as stated fails: with "blue" stored under `theme`, initialization sets
the root `data-theme` attribute to "blue", which is neither "light" nor "dark". -/
theorem init_sets_attribute_outside_themes :
    Effect.setAttribute "data-theme" "blue" ∈
      effectsSince (storedPage "blue") (onDOMContentLoaded (storedPage "blue")).page ∧
    (onDOMContentLoaded (storedPage "blue")).page.documentElement "data-theme" = some "blue" ∧
    "blue" ≠ "light" ∧ "blue" ≠ "dark" := by
  decide

/-- C8, amended: the change handler, from any page and for any checkbox state,
sets only the `data-theme` attribute and only to "light" or "dark";
initialization sets only the `data-theme` attribute and only to the stored
value, so when the `theme` entry is absent, empty, "light" or "dark" every value
it sets is "light" or "dark". -/
theorem attribute_values_are_themes (p q : Page) (s : Bool)
    (hdom : p.localStorage "theme" = none ∨ p.localStorage "theme" = some "" ∨
      p.localStorage "theme" = some "light" ∨ p.localStorage "theme" = some "dark") :
    (∀ n v, Effect.setAttribute n v ∈ effectsSince p (onDOMContentLoaded p).page →
      n = "data-theme" ∧ some v = p.localStorage "theme" ∧ (v = "light" ∨ v = "dark")) ∧
    (∀ n v, Effect.setAttribute n v ∈ effectsSince q (toggleTheme s q) →
      n = "data-theme" ∧ (v = "light" ∨ v = "dark")) := by
  refine ⟨?_, ?_⟩
  · intro n v hmem
    rw [effectsSince_append p _ _ (init_trace p)] at hmem
    rcases hdom with h | h | h | h <;>
      simp [initEffects, h, truthy, toDOMString] at hmem <;>
      simp [hmem, h]
  · intro n v hmem
    rw [effectsSince_append q _ _ (toggleTheme_trace s q)] at hmem
    cases s <;> simp at hmem <;> simp [hmem]

/-- C8, amended, on a page with "dark" stored and a handler run with the box
checked. -/
theorem attribute_values_are_themes_witness :
    (∀ n v, Effect.setAttribute n v ∈
        effectsSince (storedPage "dark") (onDOMContentLoaded (storedPage "dark")).page →
      n = "data-theme" ∧ some v = (storedPage "dark").localStorage "theme" ∧
        (v = "light" ∨ v = "dark")) ∧
    (∀ n v, Effect.setAttribute n v ∈ effectsSince blankPage (toggleTheme true blankPage) →
      n = "data-theme" ∧ (v = "light" ∨ v = "dark")) :=
  attribute_values_are_themes (storedPage "dark") blankPage true
    (Or.inr (Or.inr (Or.inr (by decide))))

/-- C9: for every checkbox state `s` and every prior page, running `toggleTheme`
twice in a row with `checked = s` leaves the same store, the same root
attributes and the same elements (so the same checkbox state) as running it
once. -/
theorem toggleTheme_idempotent (s : Bool) (p : Page) :
    (toggleTheme s (toggleTheme s p)).localStorage = (toggleTheme s p).localStorage ∧
    (toggleTheme s (toggleTheme s p)).documentElement = (toggleTheme s p).documentElement ∧
    (toggleTheme s (toggleTheme s p)).elements = (toggleTheme s p).elements := by
  refine ⟨?_, ?_, rfl⟩
  · funext k
    by_cases hk : k = "theme" <;> simp [toggleTheme, setItem, setAttribute, hk]
  · funext a
    by_cases ha : a = "data-theme" <;> simp [toggleTheme, setItem, setAttribute, ha]

/-- C10: initialization, from any page and whether or not it completes, leaves
the whole store as it was, writes nothing and reads only the key `theme`;
`toggleTheme` leaves every key other than `theme` as it was, writes only the key
`theme`, leaves an entry under `theme`, and leaves every element (so the
checkbox's checked state) as it was. -/
theorem storage_touched_only_at_theme (p q : Page) (s : Bool) :
    (onDOMContentLoaded p).page.localStorage = p.localStorage ∧
    (∀ k w, Effect.setItem k w ∉ effectsSince p (onDOMContentLoaded p).page) ∧
    (∀ k, Effect.getItem k ∈ effectsSince p (onDOMContentLoaded p).page → k = "theme") ∧
    (∀ k, k ≠ "theme" → (toggleTheme s q).localStorage k = q.localStorage k) ∧
    (∀ k w, Effect.setItem k w ∈ effectsSince q (toggleTheme s q) → k = "theme") ∧
    (toggleTheme s q).localStorage "theme" ≠ none ∧
    (toggleTheme s q).elements = q.elements ∧
    checkboxChecked (toggleTheme s q) = checkboxChecked q := by
  refine ⟨init_storage p, ?_, ?_, ?_, ?_, ?_, rfl, rfl⟩
  · intro k w
    rw [effectsSince_append p _ _ (init_trace p)]
    simp only [initEffects]
    split_ifs <;> simp
  · intro k hmem
    rw [effectsSince_append p _ _ (init_trace p)] at hmem
    simp only [initEffects] at hmem
    split_ifs at hmem <;> simpa using hmem
  · intro k hk
    simp [toggleTheme, setItem, setAttribute, hk]
  · intro k w hmem
    rw [effectsSince_append q _ _ (toggleTheme_trace s q)] at hmem
    simp at hmem
    exact hmem.1
  · rw [toggleTheme_stored]
    simp

/-- C10 on a page with "dark" stored and an unrelated key `lang` in a store
where the box is then checked: the unrelated key keeps its value. -/
theorem storage_touched_only_at_theme_witness :
    (toggleTheme true
      { storedPage "dark" with
        localStorage := fun k => if k = "lang" then some "en" else
          if k = "theme" then some "dark" else none }).localStorage "lang" = some "en" :=
  (storage_touched_only_at_theme blankPage
    { storedPage "dark" with
      localStorage := fun k => if k = "lang" then some "en" else
        if k = "theme" then some "dark" else none } true).2.2.2.1 "lang" (by decide)

end ThemeToggle
